import Mathlib

/-!
Verification of the batch blob transfer engine of
`azure-storage-blob/azure/storage/blob/batchblobservice.py`.

The engine enumerates tasks (one per regular file of a local directory for
upload, one per blob of a container listing for download), runs the per-task
storage operation through `concurrent.futures.ThreadPoolExecutor.map`, and
converts per-task exceptions into failed `BatchTaskResult`s.

Shallow embedding choices:
* The storage client collaborator (`create_container`, `create_blob_from_path`,
  `get_blob_to_path`, `list_blobs`) is an opaque record of fallible functions
  returning `Except Exc`; a raised Python exception is the `Except.error` case.
* `os.listdir` is an opaque fallible function from a path to the OS-chosen
  listing of directory entries; `os.path.isfile(join(dir, name))` is the
  entry's regular-file flag.  `os.path.join` and `os.path.isabs` are embedded
  from their POSIX definitions.
* `concurrent.futures.ThreadPoolExecutor(n).map(f, xs)` is embedded by its
  documented observable contract: the constructor rejects `max_workers <= 0`
  with `ValueError`, and `Executor.map` yields the images of the inputs in
  input order once all tasks complete.
-/

namespace AzureBatchBlob

/-- Opaque captured error information: a raised Python exception as observed
by a caller (its message/kind). -/
structure Exc where
  msg : String
deriving Repr, DecidableEq

/-- One entry of a directory listing as returned by `os.listdir`, together
with the answer `os.path.isfile` gives for it (`true` exactly for regular
files; sub-directories and other entries have `isFile = false`). -/
structure DirEntry where
  name : String
  isFile : Bool
deriving Repr, DecidableEq

/-- POSIX `os.path.isabs`: the path starts with a slash. -/
def posixIsabs (p : String) : Bool :=
  decide (p.data.take 1 = ['/'])

/-- POSIX `os.path.join` for two components: the second component replaces
the first when absolute; otherwise they are joined, inserting a slash unless
the first component is empty or already ends with one. -/
def posixJoin (a b : String) : String :=
  if posixIsabs b then b
  else if a = "" then a ++ b
  else if a.data.getLast? = some '/' then a ++ b
  else a ++ "/" ++ b

/-- The task descriptor `_BatchBlobTask(container_name, blob_name, file_path)`.
Its fields are exactly the three constructor arguments used in
`batchblobservice.py`. -/
structure BatchBlobTask where
  container_name : String
  blob_name : String
  file_path : String
deriving Repr, DecidableEq

/-- Modelled from the spec: `BatchTaskResult` lives in `models.py`, which is
not part of the sources; its fields are the constructor arguments used in
`batchblobservice.py` (`container_name`, `blob_name`, `file_path`,
`is_success`, `exception`), and per the spec's Transfer Result record the
failure detail defaults to absent when the constructor is called without it,
as on the success path. -/
structure BatchTaskResult where
  container_name : String
  blob_name : String
  file_path : String
  is_success : Bool
  exception : Option Exc
deriving Repr, DecidableEq

/-- The storage-client collaborator inherited from `BlockBlobService`, as the
batch engine uses it.  Each operation either succeeds or raises (the
`Except.error` case). -/
structure Service where
  create_container : String → Except Exc Unit
  create_blob_from_path : String → String → String → Except Exc Unit
  get_blob_to_path : String → String → String → Except Exc Unit
  list_blobs : String → Except Exc (List String)

/-- Embedding of `BatchBlobService._upload_file`: run
`create_blob_from_path` on the task's fields, catching any exception `e` and
returning a failed `BatchTaskResult` carrying it; on success return a
successful result (no exception passed, so the failure detail is absent). -/
def _upload_file (svc : Service) (task : BatchBlobTask) : BatchTaskResult :=
  match svc.create_blob_from_path task.container_name task.blob_name task.file_path with
  | Except.error e =>
      ⟨task.container_name, task.blob_name, task.file_path, false, some e⟩
  | Except.ok _ =>
      ⟨task.container_name, task.blob_name, task.file_path, true, none⟩

/-- Embedding of `BatchBlobService._download_blob`: same shape as
`_upload_file` with `get_blob_to_path` as the per-task operation. -/
def _download_blob (svc : Service) (task : BatchBlobTask) : BatchTaskResult :=
  match svc.get_blob_to_path task.container_name task.blob_name task.file_path with
  | Except.error e =>
      ⟨task.container_name, task.blob_name, task.file_path, false, some e⟩
  | Except.ok _ =>
      ⟨task.container_name, task.blob_name, task.file_path, true, none⟩

/-- Error raised by `concurrent.futures.ThreadPoolExecutor(max_workers)` when
`max_workers <= 0`. -/
def valueErrorMaxWorkers : Exc :=
  ⟨"ValueError: max_workers must be greater than 0"⟩

/-- Embedding of `list(ThreadPoolExecutor(max_workers).map(f, tasks))` by its
documented observable contract: a non-positive worker count is rejected with
`ValueError` at construction; otherwise the call blocks until every task has
run and returns the per-task results in the order of the input tasks. -/
def executorMap (max_workers : Int) (f : α → β) (tasks : List α) : Except Exc (List β) :=
  if max_workers ≤ 0 then Except.error valueErrorMaxWorkers
  else Except.ok (tasks.map f)

/-- The `os.listdir` collaborator: maps a directory path to the OS-chosen
sequence of entries, or raises (path missing, or not a directory). -/
def Listdir : Type :=
  String → Except Exc (List DirEntry)

/-- The upload task list comprehension of `upload_directory`:
one `_BatchBlobTask(container_name, file_name, join(directory_path, file_name))`
per `file_name in listdir(directory_path)` passing the
`isfile(join(directory_path, file_name))` filter, in listing order. -/
def upload_tasks_of (container_name directory_path : String)
    (listing : List DirEntry) : List BatchBlobTask :=
  (listing.filter (fun e => e.isFile)).map
    (fun e => ⟨container_name, e.name, posixJoin directory_path e.name⟩)

/-- Embedding of `BatchBlobService.upload_directory`: create the container,
enumerate the directory (exceptions from either step propagate to the
caller), build one task per regular file, and map `_upload_file` over the
tasks through the thread pool. -/
def upload_directory (svc : Service) (ld : Listdir)
    (container_name directory_path : String)
    (concurrent_number_of_upload : Int) : Except Exc (List BatchTaskResult) :=
  match svc.create_container container_name with
  | Except.error e => Except.error e
  | Except.ok _ =>
    match ld directory_path with
    | Except.error e => Except.error e
    | Except.ok listing =>
        executorMap concurrent_number_of_upload (_upload_file svc)
          (upload_tasks_of container_name directory_path listing)

/-- The download task list comprehension of `download_directory`: one
`_BatchBlobTask(container_name, blob.name, join(directory_path, blob.name))`
per blob of the container listing, in listing order. -/
def download_tasks_of (container_name directory_path : String)
    (blob_names : List String) : List BatchBlobTask :=
  blob_names.map (fun b => ⟨container_name, b, posixJoin directory_path b⟩)

/-- Embedding of `BatchBlobService.download_directory`: list the container's
blobs (an exception propagates to the caller), build one task per blob, and
map `_download_blob` over the tasks through the thread pool. -/
def download_directory (svc : Service)
    (container_name directory_path : String)
    (concurrent_number_of_download : Int) : Except Exc (List BatchTaskResult) :=
  match svc.list_blobs container_name with
  | Except.error e => Except.error e
  | Except.ok blobs =>
      executorMap concurrent_number_of_download (_download_blob svc)
        (download_tasks_of container_name directory_path blobs)

/-- A concrete container listing with the two blobs `x` and `y`. -/
def namesXY : List String :=
  ["x", "y"]

/-- A concrete container listing with the three blobs `x`, `y`, `z`. -/
def namesXYZ : List String :=
  ["x", "y", "z"]

/-- A storage client whose every operation succeeds; its container listing
holds the two blobs `x` and `y`. -/
def svcAllOk : Service :=
  ⟨fun _ => Except.ok (), fun _ _ _ => Except.ok (),
   fun _ _ _ => Except.ok (), fun _ => Except.ok namesXY⟩

/-- A captured storage failure used in concrete scenarios. -/
def excBoom : Exc :=
  ⟨"AzureHttpError: boom"⟩

/-- A storage client whose per-blob operations fail exactly on the blob named
`y`; its container listing holds `x`, `y`, `z`. -/
def svcFailY : Service :=
  ⟨fun _ => Except.ok (),
   fun _ b _ => if b = "y" then Except.error excBoom else Except.ok (),
   fun _ b _ => if b = "y" then Except.error excBoom else Except.ok (),
   fun _ => Except.ok namesXYZ⟩

/-- A storage client whose every operation succeeds and whose container
listing is empty. -/
def svcNoBlobs : Service :=
  ⟨fun _ => Except.ok (), fun _ _ _ => Except.ok (),
   fun _ _ _ => Except.ok (), fun _ => Except.ok []⟩

/-- A concrete task for blob `y`, on which `svcFailY`'s operations fail. -/
def taskY : BatchBlobTask :=
  ⟨"cont", "y", "dir/y"⟩

/-- A concrete directory listing with the two regular files `a.txt` and
`b.txt`. -/
def listingAB : List DirEntry :=
  [⟨"a.txt", true⟩, ⟨"b.txt", true⟩]

/-- A filesystem whose every directory lists the two regular files `a.txt`
and `b.txt`. -/
def fsTwoFiles : Listdir :=
  fun _ => Except.ok listingAB

/-- A filesystem whose every directory is empty. -/
def fsEmptyDir : Listdir :=
  fun _ => Except.ok []

/-- The captured `OSError` of a failed `os.listdir`. -/
def excNoSuchDir : Exc :=
  ⟨"OSError: No such file or directory"⟩

/-- A filesystem on which every `os.listdir` call raises: the requested
directory does not exist. -/
def fsMissing : Listdir :=
  fun _ => Except.error excNoSuchDir

/-! Helper lemmas shared by the claim theorems. -/

/-- Appending to a path that starts with a slash keeps the leading slash. -/
theorem posixIsabs_append (a b : String) (h : posixIsabs a = true) :
    posixIsabs (a ++ b) = true := by
  unfold posixIsabs at h ⊢
  rw [decide_eq_true_eq] at h
  rw [decide_eq_true_eq, String.data_append]
  cases hd : a.data with
  | nil => rw [hd] at h; simp at h
  | cons ch t =>
      rw [hd] at h
      simp only [List.cons_append, List.take_succ_cons, List.take_zero] at h ⊢
      exact h

/-- `posixJoin` of an absolute first component is absolute. -/
theorem posixIsabs_posixJoin (a b : String) (h : posixIsabs a = true) :
    posixIsabs (posixJoin a b) = true := by
  unfold posixJoin
  split
  · next hb => exact hb
  · split
    · next ha => rw [ha] at h; exact absurd h (by decide)
    · split
      · exact posixIsabs_append a b h
      · rw [String.append_assoc]
        exact posixIsabs_append a _ h

/-- When the container is created and the directory listed without error, and
the worker count is positive, `upload_directory` returns the per-task results
of the enumerated tasks, in enumeration order. -/
theorem upload_directory_eq_map (svc : Service) (ld : Listdir) (c d : String)
    (conc : Int) (listing : List DirEntry)
    (hcc : svc.create_container c = Except.ok ())
    (hld : ld d = Except.ok listing)
    (h1 : 1 ≤ conc) :
    upload_directory svc ld c d conc =
      Except.ok ((upload_tasks_of c d listing).map (_upload_file svc)) := by
  have h0 : ¬ conc ≤ 0 := by omega
  simp [upload_directory, hcc, hld, executorMap, h0]

/-- When the container listing succeeds and the worker count is positive,
`download_directory` returns the per-task results of the enumerated tasks, in
enumeration order. -/
theorem download_directory_eq_map (svc : Service) (c d : String)
    (conc : Int) (names : List String)
    (hlb : svc.list_blobs c = Except.ok names)
    (h1 : 1 ≤ conc) :
    download_directory svc c d conc =
      Except.ok ((download_tasks_of c d names).map (_download_blob svc)) := by
  have h0 : ¬ conc ≤ 0 := by omega
  simp [download_directory, hlb, executorMap, h0]

/-- Inversion: a successful `upload_directory` call got a successful listing
and returned exactly the mapped per-task results. -/
theorem upload_directory_ok_inv (svc : Service) (ld : Listdir) (c d : String)
    (conc : Int) (ups : List BatchTaskResult)
    (h : upload_directory svc ld c d conc = Except.ok ups) :
    ∃ listing, ld d = Except.ok listing ∧
      ups = (upload_tasks_of c d listing).map (_upload_file svc) := by
  unfold upload_directory executorMap at h
  cases hcc : svc.create_container c with
  | error e => rw [hcc] at h; simp at h
  | ok u =>
      rw [hcc] at h
      cases hld : ld d with
      | error e => rw [hld] at h; simp at h
      | ok listing =>
          rw [hld] at h
          by_cases h0 : conc ≤ 0
          · simp [h0] at h
          · simp only [h0, if_false, Except.ok.injEq] at h
            exact ⟨listing, rfl, h.symm⟩

/-- Inversion: a successful `download_directory` call got a successful blob
listing and returned exactly the mapped per-task results. -/
theorem download_directory_ok_inv (svc : Service) (c d : String)
    (conc : Int) (downs : List BatchTaskResult)
    (h : download_directory svc c d conc = Except.ok downs) :
    ∃ names, svc.list_blobs c = Except.ok names ∧
      downs = (download_tasks_of c d names).map (_download_blob svc) := by
  unfold download_directory executorMap at h
  cases hlb : svc.list_blobs c with
  | error e => rw [hlb] at h; simp at h
  | ok names =>
      rw [hlb] at h
      by_cases h0 : conc ≤ 0
      · simp [h0] at h
      · simp only [h0, if_false, Except.ok.injEq] at h
        exact ⟨names, rfl, h.symm⟩

/-! Claim theorems. -/

/-- C1: when the container is created, the directory listed (for upload) and
the container listing fetched (for download) without error, any positive
concurrency makes `upload_directory` return exactly one result per enumerated
upload task — as many results as there are regular files in the listing — and
`download_directory` exactly one result per listed blob, the i-th result
being produced from the i-th enumerated task, with no duplicates and no
omissions. -/
theorem C1_batch_bijection (svc : Service) (ld : Listdir) (c d : String)
    (conc : Int) (listing : List DirEntry) (names : List String)
    (hcc : svc.create_container c = Except.ok ())
    (hld : ld d = Except.ok listing)
    (hlb : svc.list_blobs c = Except.ok names)
    (h1 : 1 ≤ conc) :
    ∃ ups downs,
      upload_directory svc ld c d conc = Except.ok ups ∧
      ups.length = (upload_tasks_of c d listing).length ∧
      ups.length = listing.countP (fun e => e.isFile) ∧
      (∀ i : Nat, ups[i]? =
        ((upload_tasks_of c d listing)[i]?).map (_upload_file svc)) ∧
      download_directory svc c d conc = Except.ok downs ∧
      downs.length = (download_tasks_of c d names).length ∧
      downs.length = names.length ∧
      (∀ i : Nat, downs[i]? =
        ((download_tasks_of c d names)[i]?).map (_download_blob svc)) := by
  refine ⟨(upload_tasks_of c d listing).map (_upload_file svc),
          (download_tasks_of c d names).map (_download_blob svc),
          upload_directory_eq_map svc ld c d conc listing hcc hld h1,
          by simp,
          by simp [upload_tasks_of, List.countP_eq_length_filter],
          by intro i; simp,
          download_directory_eq_map svc c d conc names hlb h1,
          by simp,
          by simp [download_tasks_of],
          by intro i; simp⟩

/-- C2: a per-task storage failure (`create_blob_from_path` for upload,
`get_blob_to_path` for download raising `e`) is caught at the single-task
boundary and converted into a failed `BatchTaskResult` carrying `e`; the
batch call still succeeds and still returns the per-task result of every
sibling task, each computed from its own task alone. -/
theorem C2_per_task_failure_contained (svc : Service) (ld : Listdir)
    (c d : String) (conc : Int) (listing : List DirEntry) (names : List String)
    (task : BatchBlobTask) (e : Exc)
    (hcc : svc.create_container c = Except.ok ())
    (hld : ld d = Except.ok listing)
    (hlb : svc.list_blobs c = Except.ok names)
    (h1 : 1 ≤ conc)
    (hput : svc.create_blob_from_path task.container_name task.blob_name
      task.file_path = Except.error e)
    (hget : svc.get_blob_to_path task.container_name task.blob_name
      task.file_path = Except.error e) :
    _upload_file svc task =
      ⟨task.container_name, task.blob_name, task.file_path, false, some e⟩ ∧
    _download_blob svc task =
      ⟨task.container_name, task.blob_name, task.file_path, false, some e⟩ ∧
    upload_directory svc ld c d conc =
      Except.ok ((upload_tasks_of c d listing).map (_upload_file svc)) ∧
    download_directory svc c d conc =
      Except.ok ((download_tasks_of c d names).map (_download_blob svc)) := by
  refine ⟨?_, ?_, upload_directory_eq_map svc ld c d conc listing hcc hld h1,
          download_directory_eq_map svc c d conc names hlb h1⟩
  · unfold _upload_file; rw [hput]
  · unfold _download_blob; rw [hget]

/-- C3: in every result list a successful batch call returns, a result
carries a captured exception if and only if its success flag is false. -/
theorem C3_exception_iff_failure (svc : Service) (ld : Listdir) (c d : String)
    (conc : Int) (ups downs : List BatchTaskResult)
    (hup : upload_directory svc ld c d conc = Except.ok ups)
    (hdn : download_directory svc c d conc = Except.ok downs) :
    (∀ r ∈ ups, r.exception.isSome = true ↔ r.is_success = false) ∧
    (∀ r ∈ downs, r.exception.isSome = true ↔ r.is_success = false) := by
  obtain ⟨listing, -, hups⟩ := upload_directory_ok_inv svc ld c d conc ups hup
  obtain ⟨names, -, hdns⟩ := download_directory_ok_inv svc c d conc downs hdn
  subst hups hdns
  constructor
  · intro r hr
    obtain ⟨t, -, rfl⟩ := List.mem_map.mp hr
    unfold _upload_file
    cases svc.create_blob_from_path t.container_name t.blob_name t.file_path <;> simp
  · intro r hr
    obtain ⟨t, -, rfl⟩ := List.mem_map.mp hr
    unfold _download_blob
    cases svc.get_blob_to_path t.container_name t.blob_name t.file_path <;> simp

/-- C4: when enumeration yields no tasks — the directory listing is empty for
upload, the container listing empty for download — the batch call returns an
empty result list and raises no error. -/
theorem C4_empty_enumeration (svc : Service) (ld : Listdir) (c d : String)
    (conc : Int)
    (hcc : svc.create_container c = Except.ok ())
    (hld : ld d = Except.ok [])
    (hlb : svc.list_blobs c = Except.ok [])
    (h1 : 1 ≤ conc) :
    upload_directory svc ld c d conc = Except.ok [] ∧
    download_directory svc c d conc = Except.ok [] := by
  have hu := upload_directory_eq_map svc ld c d conc [] hcc hld h1
  have hd := download_directory_eq_map svc c d conc [] hlb h1
  simpa [upload_tasks_of, download_tasks_of] using And.intro hu hd

/-- C5: upload enumeration produces exactly one task per regular file of the
listing, in listing order, none for entries that are not regular files
(sub-directories are silently excluded), with each task's blob name equal to
the entry's base name; in particular a directory of 3 regular files and 1
sub-directory yields exactly the 3 file tasks. -/
theorem C5_enumerates_regular_files_only (c d : String)
    (listing : List DirEntry) :
    (upload_tasks_of c d listing).length = listing.countP (fun e => e.isFile) ∧
    (upload_tasks_of c d listing).map (fun t => t.blob_name) =
      (listing.filter (fun e => e.isFile)).map (fun e => e.name) ∧
    (upload_tasks_of "cont" "dir"
        [⟨"f1", true⟩, ⟨"f2", true⟩, ⟨"subdir", false⟩, ⟨"f3", true⟩]).map
      (fun t => t.blob_name) = ["f1", "f2", "f3"] := by
  refine ⟨?_, ?_, rfl⟩
  · simp [upload_tasks_of, List.countP_eq_length_filter]
  · simp [upload_tasks_of]

/-- C6 fails as stated: `upload_directory` joins the caller-supplied
`directory_path` with the file name (the imported `abspath` is never
applied), so with the relative directory `test-upload-dir` containing the
regular file `blob0` the enumerated task's `file_path` is the relative path
`test-upload-dir/blob0`, not an absolute path. -/
theorem C6_counterexample :
    (upload_tasks_of "cont" "test-upload-dir" [⟨"blob0", true⟩]).map
      (fun t => t.file_path) = ["test-upload-dir/blob0"] ∧
    posixIsabs "test-upload-dir/blob0" = false := by
  exact ⟨rfl, by decide⟩

/-- C6 amended: each enumerated task's `file_path` is
`join(directory_path, base name)`; it is absolute whenever the
caller-supplied `directory_path` is absolute (and in general only then, as
no `abspath` conversion is applied). -/
theorem C6_localPath_is_join (c d : String) (listing : List DirEntry) :
    ∀ t ∈ upload_tasks_of c d listing,
      t.file_path = posixJoin d t.blob_name ∧
      (posixIsabs d = true → posixIsabs t.file_path = true) := by
  intro t ht
  obtain ⟨e, -, rfl⟩ := List.mem_map.mp ht
  exact ⟨rfl, fun h => posixIsabs_posixJoin d e.name h⟩

/-- Witness for C6 amended at a concrete absolute directory. -/
theorem C6_localPath_is_join_witness :
    (⟨"cont", "f", "/abs/f"⟩ : BatchBlobTask) ∈
      upload_tasks_of "cont" "/abs" [⟨"f", true⟩] ∧
    ("/abs/f" = posixJoin "/abs" "f" ∧
      (posixIsabs "/abs" = true → posixIsabs "/abs/f" = true)) := by
  have hmem : (⟨"cont", "f", "/abs/f"⟩ : BatchBlobTask) ∈
      upload_tasks_of "cont" "/abs" [⟨"f", true⟩] := by decide
  exact ⟨hmem, C6_localPath_is_join "cont" "/abs" [⟨"f", true⟩] _ hmem⟩

/-- C7 fails as stated: the enumerator applies no sorting, so its output
order is exactly the order `os.listdir` (or `list_blobs`) returned — two
listings of the same directory contents (permutations of each other) yield
different task sequences, and the sequence is not lexicographic by name. -/
theorem C7_counterexample :
    List.Perm [(⟨"a", true⟩ : DirEntry), ⟨"b", true⟩] [⟨"b", true⟩, ⟨"a", true⟩] ∧
    upload_tasks_of "cont" "dir" [⟨"a", true⟩, ⟨"b", true⟩] ≠
      upload_tasks_of "cont" "dir" [⟨"b", true⟩, ⟨"a", true⟩] ∧
    (upload_tasks_of "cont" "dir" [⟨"b", true⟩, ⟨"a", true⟩]).map
      (fun t => t.blob_name) = ["b", "a"] := by
  refine ⟨?_, by decide, rfl⟩
  exact List.Perm.swap (⟨"b", true⟩ : DirEntry) (⟨"a", true⟩ : DirEntry) []

/-- C7 amended: the enumerator is a pure function of the listing handed to
it and emits the tasks in exactly the listing's order (it never sorts), for
upload and download alike; determinism therefore holds only relative to the
listing order the OS or service chooses. -/
theorem C7_enumeration_preserves_listing_order (c d : String)
    (listing : List DirEntry) (names : List String) :
    (upload_tasks_of c d listing).map (fun t => t.blob_name) =
      (listing.filter (fun e => e.isFile)).map (fun e => e.name) ∧
    (download_tasks_of c d names).map (fun t => t.blob_name) = names := by
  constructor
  · simp [upload_tasks_of]
  · simp only [download_tasks_of, List.map_map]
    exact List.map_id' names

/-- C8 fails as stated: a non-positive concurrency is not clamped to 1; the
thread pool rejects it, so the concrete batch call with concurrency 0 raises
`ValueError` instead of running to completion. -/
theorem C8_counterexample :
    upload_directory svcAllOk fsTwoFiles "cont" "updir" 0 =
      Except.error valueErrorMaxWorkers := by
  rfl

/-- C8 amended: a non-positive concurrency makes the batch call raise the
thread pool's `ValueError` after container creation and enumeration but
before any per-task operation, producing no results — it is rejected, not
clamped. -/
theorem C8_nonpositive_concurrency_raises (svc : Service) (ld : Listdir)
    (c d : String) (conc : Int) (listing : List DirEntry) (names : List String)
    (hcc : svc.create_container c = Except.ok ())
    (hld : ld d = Except.ok listing)
    (hlb : svc.list_blobs c = Except.ok names)
    (h0 : conc ≤ 0) :
    upload_directory svc ld c d conc = Except.error valueErrorMaxWorkers ∧
    download_directory svc c d conc = Except.error valueErrorMaxWorkers := by
  constructor
  · simp [upload_directory, hcc, hld, executorMap, h0]
  · simp [download_directory, hlb, executorMap, h0]

/-- C9: when `os.listdir` raises because the target directory does not exist
or is not a directory, `upload_directory` propagates that error to the
caller; no result list is produced, and the outcome is the same whatever the
per-task upload operation would do — no per-task operation is executed. -/
theorem C9_missing_directory_aborts (svc : Service) (ld : Listdir)
    (c d : String) (conc : Int) (e : Exc)
    (hcc : svc.create_container c = Except.ok ())
    (hld : ld d = Except.error e) :
    upload_directory svc ld c d conc = Except.error e ∧
    ∀ put, upload_directory { svc with create_blob_from_path := put } ld c d conc =
      Except.error e := by
  constructor
  · simp [upload_directory, hcc, hld]
  · intro put
    simp [upload_directory, hcc, hld]

/-- C10: although no ordering is promised, the batch call returns its results
in enumeration order — it equals mapping the per-task function over the
enumerated task list, so the i-th result comes from the i-th task (the
embedded `Executor.map` contract returns results in input order). -/
theorem C10_results_in_enumeration_order (svc : Service) (ld : Listdir)
    (c d : String) (conc : Int) (listing : List DirEntry) (names : List String)
    (hcc : svc.create_container c = Except.ok ())
    (hld : ld d = Except.ok listing)
    (hlb : svc.list_blobs c = Except.ok names)
    (h1 : 1 ≤ conc) :
    upload_directory svc ld c d conc =
      Except.ok ((upload_tasks_of c d listing).map (_upload_file svc)) ∧
    download_directory svc c d conc =
      Except.ok ((download_tasks_of c d names).map (_download_blob svc)) :=
  ⟨upload_directory_eq_map svc ld c d conc listing hcc hld h1,
   download_directory_eq_map svc c d conc names hlb h1⟩

/-! Witnesses: each claim theorem with hypotheses, applied at a concrete
service, filesystem and concurrency. -/

/-- Witness for C1 on a two-file directory and a two-blob listing at
concurrency 1. -/
theorem C1_batch_bijection_witness :
    svcAllOk.create_container "cont" = Except.ok () ∧
    fsTwoFiles "updir" = Except.ok listingAB ∧
    svcAllOk.list_blobs "cont" = Except.ok namesXY ∧
    (1 : Int) ≤ 1 ∧
    (∃ ups downs,
      upload_directory svcAllOk fsTwoFiles "cont" "updir" 1 = Except.ok ups ∧
      ups.length = (upload_tasks_of "cont" "updir" listingAB).length ∧
      ups.length = listingAB.countP (fun e => e.isFile) ∧
      (∀ i : Nat, ups[i]? =
        ((upload_tasks_of "cont" "updir" listingAB)[i]?).map (_upload_file svcAllOk)) ∧
      download_directory svcAllOk "cont" "updir" 1 = Except.ok downs ∧
      downs.length = (download_tasks_of "cont" "updir" namesXY).length ∧
      downs.length = namesXY.length ∧
      (∀ i : Nat, downs[i]? =
        ((download_tasks_of "cont" "updir" namesXY)[i]?).map (_download_blob svcAllOk))) :=
  ⟨rfl, rfl, rfl, by decide,
   C1_batch_bijection svcAllOk fsTwoFiles "cont" "updir" 1 listingAB namesXY
     rfl rfl rfl (by decide)⟩

/-- Witness for C2: `svcFailY`'s operations fail on the task for blob `y`
while the batch over a two-file directory and a three-blob listing still
completes. -/
theorem C2_per_task_failure_contained_witness :
    svcFailY.create_container "cont" = Except.ok () ∧
    fsTwoFiles "updir" = Except.ok listingAB ∧
    svcFailY.list_blobs "cont" = Except.ok namesXYZ ∧
    (1 : Int) ≤ 1 ∧
    svcFailY.create_blob_from_path taskY.container_name taskY.blob_name
      taskY.file_path = Except.error excBoom ∧
    svcFailY.get_blob_to_path taskY.container_name taskY.blob_name
      taskY.file_path = Except.error excBoom ∧
    (_upload_file svcFailY taskY =
      ⟨taskY.container_name, taskY.blob_name, taskY.file_path, false, some excBoom⟩ ∧
    _download_blob svcFailY taskY =
      ⟨taskY.container_name, taskY.blob_name, taskY.file_path, false, some excBoom⟩ ∧
    upload_directory svcFailY fsTwoFiles "cont" "updir" 1 =
      Except.ok ((upload_tasks_of "cont" "updir" listingAB).map (_upload_file svcFailY)) ∧
    download_directory svcFailY "cont" "updir" 1 =
      Except.ok ((download_tasks_of "cont" "updir" namesXYZ).map (_download_blob svcFailY))) :=
  ⟨rfl, rfl, rfl, by decide, rfl, rfl,
   C2_per_task_failure_contained svcFailY fsTwoFiles "cont" "updir" 1
     listingAB namesXYZ taskY excBoom rfl rfl rfl (by decide) rfl rfl⟩

/-- Witness for C3 on the concrete batches of `svcFailY`, whose download
results mix successes and the failure on `y`. -/
theorem C3_exception_iff_failure_witness :
    upload_directory svcFailY fsTwoFiles "cont" "updir" 1 =
      Except.ok ((upload_tasks_of "cont" "updir" listingAB).map (_upload_file svcFailY)) ∧
    download_directory svcFailY "cont" "updir" 1 =
      Except.ok ((download_tasks_of "cont" "updir" namesXYZ).map (_download_blob svcFailY)) ∧
    ((∀ r ∈ (upload_tasks_of "cont" "updir" listingAB).map (_upload_file svcFailY),
        r.exception.isSome = true ↔ r.is_success = false) ∧
     (∀ r ∈ (download_tasks_of "cont" "updir" namesXYZ).map (_download_blob svcFailY),
        r.exception.isSome = true ↔ r.is_success = false)) := by
  refine ⟨rfl, rfl, ?_⟩
  exact C3_exception_iff_failure svcFailY fsTwoFiles "cont" "updir" 1 _ _ rfl rfl

/-- Witness for C4 on an empty directory and an empty container listing. -/
theorem C4_empty_enumeration_witness :
    svcNoBlobs.create_container "cont" = Except.ok () ∧
    fsEmptyDir "updir" = Except.ok [] ∧
    svcNoBlobs.list_blobs "cont" = Except.ok [] ∧
    (1 : Int) ≤ 1 ∧
    (upload_directory svcNoBlobs fsEmptyDir "cont" "updir" 1 = Except.ok [] ∧
     download_directory svcNoBlobs "cont" "updir" 1 = Except.ok []) :=
  ⟨rfl, rfl, rfl, by decide,
   C4_empty_enumeration svcNoBlobs fsEmptyDir "cont" "updir" 1
     rfl rfl rfl (by decide)⟩

/-- Witness for C8 amended at concurrency 0. -/
theorem C8_nonpositive_concurrency_raises_witness :
    svcAllOk.create_container "cont" = Except.ok () ∧
    fsTwoFiles "updir" = Except.ok listingAB ∧
    svcAllOk.list_blobs "cont" = Except.ok namesXY ∧
    (0 : Int) ≤ 0 ∧
    (upload_directory svcAllOk fsTwoFiles "cont" "updir" 0 =
      Except.error valueErrorMaxWorkers ∧
     download_directory svcAllOk "cont" "updir" 0 =
      Except.error valueErrorMaxWorkers) :=
  ⟨rfl, rfl, rfl, by decide,
   C8_nonpositive_concurrency_raises svcAllOk fsTwoFiles "cont" "updir" 0
     listingAB namesXY rfl rfl rfl (by decide)⟩

/-- Witness for C9 on a filesystem whose `os.listdir` raises. -/
theorem C9_missing_directory_aborts_witness :
    svcAllOk.create_container "cont" = Except.ok () ∧
    fsMissing "no-such-dir" = Except.error excNoSuchDir ∧
    (upload_directory svcAllOk fsMissing "cont" "no-such-dir" 2 =
      Except.error excNoSuchDir ∧
     ∀ put, upload_directory { svcAllOk with create_blob_from_path := put }
        fsMissing "cont" "no-such-dir" 2 = Except.error excNoSuchDir) :=
  ⟨rfl, rfl,
   C9_missing_directory_aborts svcAllOk fsMissing "cont" "no-such-dir" 2
     excNoSuchDir rfl rfl⟩

/-- Witness for C10 on the two-file directory and two-blob listing at
concurrency 1. -/
theorem C10_results_in_enumeration_order_witness :
    svcAllOk.create_container "cont" = Except.ok () ∧
    fsTwoFiles "updir" = Except.ok listingAB ∧
    svcAllOk.list_blobs "cont" = Except.ok namesXY ∧
    (1 : Int) ≤ 1 ∧
    (upload_directory svcAllOk fsTwoFiles "cont" "updir" 1 =
      Except.ok ((upload_tasks_of "cont" "updir" listingAB).map (_upload_file svcAllOk)) ∧
     download_directory svcAllOk "cont" "updir" 1 =
      Except.ok ((download_tasks_of "cont" "updir" namesXY).map (_download_blob svcAllOk))) :=
  ⟨rfl, rfl, rfl, by decide,
   C10_results_in_enumeration_order svcAllOk fsTwoFiles "cont" "updir" 1
     listingAB namesXY rfl rfl rfl (by decide)⟩

end AzureBatchBlob
